import Mathlib

/-!
Shallow embedding of `src/main.py` (Video Downloader API server), together
with theorems settling the specification claims about it.  Python strings
are modelled as Lean `String`, Python `dict.get` defaults as `Option`, Python
`time.time()` as a `Nat` number of seconds, and Python exceptions as explicit
`Except` values.  Character classification (`str.isalnum`, `str.lower`) is
modelled for ASCII text, which covers every literal the program matches on.
-/

namespace VideoAPI

/-- Python substring test `needle in hay`. -/
def strContains (hay needle : String) : Bool := decide (needle.data <:+: hay.data)

/-- Python `str.lower()`, modelled for ASCII text. -/
def strLower (s : String) : String := ⟨s.data.map Char.toLower⟩

/-- Python slice `s[:n]`. -/
def strTake (s : String) (n : Nat) : String := ⟨s.data.take n⟩

/-- Python `str.strip()` on a character list: removal of leading and
trailing whitespace. -/
def stripChars (l : List Char) : List Char :=
  ((l.dropWhile Char.isWhitespace).reverse.dropWhile Char.isWhitespace).reverse

/-- Python truthiness filter for an optional string: `None` and `""` are falsy. -/
def truthyStr (o : Option String) : Option String :=
  match o with
  | some s => if s = "" then none else some s
  | none => none

/-- Python `a or b` on optional integers: `None` and `0` are falsy. -/
def pyOrNat (a b : Option Nat) : Option Nat :=
  match a with
  | some n => if n = 0 then b else some n
  | none => b

/-! ## Metadata cache (main.py lines 41-42, 61-68, 177-178, 250-253) -/

/-- CACHE_TTL (main.py line 42), in seconds. -/
def CACHE_TTL : Nat := 300

/-- One `video_cache` value: the dict `\x7b"data": ..., "timestamp": ...\x7d`. -/
structure CacheEntry (α : Type) where
  data : α
  timestamp : Nat

/-- The module-level `video_cache` dict, keyed by the md5 fingerprint string
(`get_cache_key` is an opaque digest of the URL and is kept abstract). -/
abbrev Cache (α : Type) : Type := String → Option (CacheEntry α)

/-- The empty `video_cache` at process start (main.py line 41). -/
def emptyCache (α : Type) : Cache α := fun _ => none

/-- is_cache_valid (main.py lines 65-68).  The `none` case is the Python
falsy-entry guard; otherwise `time.time() - entry["timestamp"] < CACHE_TTL`.
Nat subtraction truncates at zero exactly as a negative Python difference
also satisfies `< CACHE_TTL`. -/
def is_cache_valid (entry : Option (CacheEntry α)) (now : Nat) : Bool :=
  match entry with
  | none => false
  | some e => decide (now - e.timestamp < CACHE_TTL)

/-- The /info cache read (main.py lines 177-178):
`cache_key in video_cache and is_cache_valid(video_cache[cache_key])`,
returning the stored payload on a fresh hit. -/
def cacheGet (c : Cache α) (k : String) (now : Nat) : Option α :=
  match c k with
  | some e => if is_cache_valid (some e) now then some e.data else none
  | none => none

/-- The /info cache write (main.py lines 250-253): unconditional overwrite
with a fresh timestamp. -/
def cachePut (c : Cache α) (k : String) (d : α) (now : Nat) : Cache α :=
  fun k' => if k' = k then some ⟨d, now⟩ else c k'

/-! ## Platform classifier (main.py lines 71-85) -/

/-- detect_platform (main.py lines 71-85); `strLower url` is the
`url_lower` local. -/
def detect_platform (url : String) : String :=
  if strContains (strLower url) "youtube.com" || strContains (strLower url) "youtu.be" then
    "youtube"
  else if strContains (strLower url) "vk.com" || strContains (strLower url) "vk.ru" ||
      strContains (strLower url) "vkvideo.ru" then "vk"
  else if strContains (strLower url) "tiktok.com" then "tiktok"
  else if strContains (strLower url) "rutube.ru" then "rutube"
  else if strContains (strLower url) "ok.ru" then "ok"
  else if strContains (strLower url) "dzen.ru" then "dzen"
  else "generic"

/-- The closed enumeration of platform tags named by the specification. -/
def platformTags : List String :=
  ["youtube", "vk", "tiktok", "rutube", "ok", "dzen", "instagram", "twitter", "generic"]

/-- True when the lowered URL matches any of the domain substrings checked by
`detect_platform`. -/
def matchesKnownDomain (url : String) : Bool :=
  strContains (strLower url) "youtube.com" || strContains (strLower url) "youtu.be" ||
  strContains (strLower url) "vk.com" || strContains (strLower url) "vk.ru" ||
  strContains (strLower url) "vkvideo.ru" || strContains (strLower url) "tiktok.com" ||
  strContains (strLower url) "rutube.ru" || strContains (strLower url) "ok.ru" ||
  strContains (strLower url) "dzen.ru"

/-! ## Format selection expressions (main.py lines 284-294 and 398-409) -/

/-- Python `quality.replace("p", "")`. -/
def stripP (s : String) : String := ⟨s.data.filter (fun c => c ≠ 'p')⟩

/-- Python `request.quality or "best"` (main.py lines 279, 375). -/
def effQuality (q : Option String) : String := (truthyStr q).getD "best"

/-- The format_spec chosen by get_download_url (main.py lines 284-294).
`format_id` participates through Python truthiness: `if format_id:`. -/
def downloadFormatSpec (format_id : Option String) (quality : String) : String :=
  match truthyStr format_id with
  | some fid => fid
  | none =>
    if quality = "audio" then "bestaudio/best"
    else if quality = "best" then "best/bestvideo+bestaudio"
    else if quality ∈ ["1080p", "720p", "480p", "360p"] then
      let height := stripP quality
      "bestvideo[height<=" ++ height ++ "]+bestaudio/best[height<=" ++ height ++ "]/best"
    else "best"

/-- The format_spec chosen by stream_download (main.py lines 398-409). -/
def streamFormatSpec (format_id : Option String) (quality : String) : String :=
  match truthyStr format_id with
  | some fid => fid
  | none =>
    if quality = "audio" then "bestaudio[ext=m4a]/bestaudio/best"
    else if quality = "best" then "best[ext=mp4]/best"
    else if quality ∈ ["1080p", "720p", "480p", "360p"] then
      let height := stripP quality
      "best[height<=" ++ height ++ "][ext=mp4]/best[height<=" ++ height ++ "]/best"
    else "best[ext=mp4]/best"

/-- The ordered fallback links of a format expression: yt-dlp separates
alternatives with "/". -/
def specLinks (s : String) : List String :=
  (List.splitOn '/' s.data).map (fun l => (⟨l⟩ : String))

/-! ## The /info format listing (main.py lines 191-246) -/

/-- Fields of one raw engine format dict as read by get_video_info
(main.py lines 192-218).  `vcodec` and `acodec` fold in the Python default
`f.get(..., "none")`; `height` keeps `None`/missing as `none` (the code maps
both to 0 via `or 0`); `filesize` and `filesize_approx` stay separate because
the code combines them with Python `or`. -/
structure RawFormat where
  format_id : String
  vcodec : String := "none"
  acodec : String := "none"
  height : Option Nat := none
  ext : Option String := none
  resolution : Option String := none
  filesize : Option Nat := none
  filesize_approx : Option Nat := none

/-- One entry of the displayed format list built by get_video_info. -/
structure FormatEntry where
  format_id : String
  ext : String
  quality : String
  resolution : String
  filesize : Option Nat
  has_audio : Bool
  has_video : Bool
  height : Nat
deriving DecidableEq

/-- The classification of one raw format (main.py lines 193-218): audio-only
when `vcodec == "none"` and `acodec != "none"`; video when `vcodec != "none"`;
a format with neither codec is skipped. -/
def classifyFormat (f : RawFormat) : Option FormatEntry :=
  if f.vcodec = "none" ∧ f.acodec ≠ "none" then
    some { format_id := f.format_id, ext := f.ext.getD "mp3", quality := "audio",
           resolution := "Audio only",
           filesize := pyOrNat f.filesize f.filesize_approx,
           has_audio := true, has_video := false, height := 0 }
  else if f.vcodec ≠ "none" then
    let h := (f.height.getD 0)
    some { format_id := f.format_id, ext := f.ext.getD "mp4",
           quality := if h ≠ 0 then toString h ++ "p" else "unknown",
           resolution := f.resolution.getD (toString h ++ "p"),
           filesize := pyOrNat f.filesize f.filesize_approx,
           has_audio := f.acodec ≠ "none", has_video := true, height := h }
  else none

/-- The discard step (main.py line 221): keep entries with positive height or
the literal "audio" quality label. -/
def keptFormats (raws : List RawFormat) : List FormatEntry :=
  (raws.filterMap classifyFormat).filter
    (fun f => decide (0 < f.height) || decide (f.quality = "audio"))

/-- Stable insertion of one element into a height-descending list: the new
element, which precedes the list elements in the original order, goes before
every element of smaller or equal height. -/
def insertByHeightDesc (f : FormatEntry) : List FormatEntry → List FormatEntry
  | [] => [f]
  | g :: rest =>
    if g.height ≤ f.height then f :: g :: rest else g :: insertByHeightDesc f rest

/-- Python `sorted(..., key=lambda x: x.get("height", 0), reverse=True)`
(main.py lines 220-224) is a stable descending sort; embedded as a stable
insertion sort. -/
def sortByHeightDesc (l : List FormatEntry) : List FormatEntry :=
  l.foldr insertByHeightDesc []

/-- The sorted, discard-filtered format list of get_video_info. -/
def sortedFormats (raws : List RawFormat) : List FormatEntry :=
  sortByHeightDesc (keptFormats raws)

/-- The first-wins de-duplication loop over quality labels
(main.py lines 226-232); `seen` models the Python set of labels. -/
def dedupFirst : List FormatEntry → List String → List FormatEntry
  | [], _ => []
  | f :: rest, seen =>
    if f.quality ∈ seen then dedupFirst rest seen
    else f :: dedupFirst rest (f.quality :: seen)

/-- The full /info format listing (main.py lines 191-232 and 246): classify,
discard, sort descending, de-duplicate first-wins, truncate to 10. -/
def processFormats (raws : List RawFormat) : List FormatEntry :=
  (dedupFirst (sortedFormats raws) []).take 10

/-! ## Error classification (main.py lines 257-272 and 351-364) -/

/-- The yt_dlp.DownloadError message classifier of get_video_info
(main.py lines 257-268), returning (status, detail). -/
def classifyInfoErrMsg (msg : String) : Nat × String :=
  if strContains msg "Sign in" || strContains (strLower msg) "bot" then
    (403, "Platform requires authorization")
  else if strContains msg "Private" then (403, "Video is private")
  else if strContains (strLower msg) "unavailable" then
    (404, "Video unavailable or deleted")
  else if strContains (strLower msg) "geo" || strContains (strLower msg) "country" then
    (403, "Video not available in your region")
  else (500, "Extraction error: " ++ strTake msg 200)

/-- The yt_dlp.DownloadError message classifier of get_download_url
(main.py lines 351-360); it has no geo branch. -/
def classifyDlErrMsg (msg : String) : Nat × String :=
  if strContains msg "Sign in" || strContains (strLower msg) "bot" then
    (403, "Platform requires authorization")
  else if strContains msg "Private" then (403, "Video is private")
  else if strContains (strLower msg) "unavailable" then (404, "Video unavailable")
  else (500, "Error: " ++ strTake msg 200)

/-- Exceptions that can escape the extraction phase of a handler.  FastAPI's
HTTPException is a subclass of Exception, so a bare `except Exception` also
catches it. -/
inductive PyExc where
  | http (status : Nat) (detail : String)
  | downloadError (msg : String)
  | other (msg : String)
deriving DecidableEq

/-- Python `str(e)`; Starlette's HTTPException prints as "status: detail". -/
def excStr : PyExc → String
  | .http s d => toString s ++ ": " ++ d
  | .downloadError m => m
  | .other m => m

/-- Outcome of the `_extract_info_sync` call run in the executor: structured
metadata, a falsy result, or a raised exception. -/
inductive ExtractOutcome (α : Type) where
  | ok (info : α)
  | empty
  | downloadError (msg : String)
  | otherError (msg : String)

/-- The shared fetch shape `info = await ...; if not info: raise
HTTPException(404, "Video not found")` (main.py lines 186-189, 300-303,
384-387). -/
def fetchInfo (outcome : ExtractOutcome α) : Except PyExc α :=
  match outcome with
  | .ok i => .ok i
  | .empty => .error (.http 404 "Video not found")
  | .downloadError m => .error (.downloadError m)
  | .otherError m => .error (.other m)

/-- The /info except chain (main.py lines 257-272): DownloadError is
classified, an HTTPException is re-raised unchanged, any other Exception
becomes 500 with the message truncated to 200 characters. -/
def infoCatch : PyExc → Nat × String
  | .downloadError m => classifyInfoErrMsg m
  | .http s d => (s, d)
  | .other m => (500, strTake m 200)

/-- The /download except chain (main.py lines 351-364). -/
def downloadCatch : PyExc → Nat × String
  | .downloadError m => classifyDlErrMsg m
  | .http s d => (s, d)
  | .other m => (500, strTake m 200)

/-- The /stream pre-fetch except clause (main.py lines 394-395): a bare
`except Exception` that also catches the HTTPException and DownloadError
cases and re-wraps them as 500. -/
def streamPrefetchCatch (e : PyExc) : Nat × String :=
  (500, "Failed to get video info: " ++ strTake (excStr e) 100)

/-! ## The /info handler (main.py lines 172-272) -/

/-- Fields of the engine metadata dict read by get_video_info. -/
structure InfoDict where
  id : Option String := none
  title : Option String := none
  description : Option String := none
  thumbnail : Option String := none
  duration : Option Nat := none
  uploader : Option String := none
  view_count : Option Nat := none
  webpage_url : Option String := none
  formats : List RawFormat := []

/-- The "data" object of a successful /info response (main.py lines 237-247). -/
structure InfoData where
  id : Option String
  title : String
  description : String
  thumbnail : Option String
  duration : Nat
  uploader : String
  view_count : Option Nat
  webpage_url : String
  formats : List FormatEntry
deriving DecidableEq

/-- A successful /info response (main.py lines 234-248). -/
structure InfoResult where
  success : Bool
  platform : String
  data : InfoData
deriving DecidableEq

/-- Construction of the /info result dict (main.py lines 234-248). -/
def renderInfo (platform : String) (url : String) (info : InfoDict) : InfoResult :=
  { success := true, platform := platform,
    data := { id := info.id,
              title := info.title.getD "Unknown",
              description := strTake (info.description.getD "") 500,
              thumbnail := info.thumbnail,
              duration := info.duration.getD 0,
              uploader := info.uploader.getD "Unknown",
              view_count := info.view_count,
              webpage_url := info.webpage_url.getD url,
              formats := processFormats info.formats } }

/-- get_video_info (main.py lines 172-272) as a state transformer on the
cache: serve a fresh cached entry, otherwise extract, build the result, write
it to the cache and return it, or map the failure through the except chain
leaving the cache untouched.  `key` stands for `get_cache_key(url)`. -/
def infoHandler (c : Cache InfoResult) (now : Nat) (url : String) (key : String)
    (outcome : ExtractOutcome InfoDict) :
    (Except (Nat × String) InfoResult) × Cache InfoResult :=
  match cacheGet c key now with
  | some cached => (.ok cached, c)
  | none =>
    match fetchInfo outcome with
    | .ok info =>
      let result := renderInfo (detect_platform url) url info
      (.ok result, cachePut c key result now)
    | .error e => (.error (infoCatch e), c)

/-! ## The /download handler (main.py lines 275-364) -/

/-- Fields of one format dict read by the /download URL resolution; in the
`requested_formats` loop the codecs are read with `f.get("vcodec")`, whose
missing-key default is `None`, kept here as `none`. -/
structure DlFormat where
  vcodec : Option String := none
  acodec : Option String := none
  url : Option String := none

/-- Fields of the engine metadata dict read by get_download_url. -/
structure DlInfo where
  url : Option String := none
  formats : List DlFormat := []
  requested_formats : List DlFormat := []
  title : Option String := none
  ext : Option String := none
  duration : Option Nat := none
  filesize : Option Nat := none
  filesize_approx : Option Nat := none

/-- A successful /download response (main.py lines 324-334 and 339-349). -/
structure DlResponse where
  success : Bool
  platform : String
  title : String
  ext : String
  download_url : String
  audio_url : Option String
  needs_merge : Bool
  duration : Option Nat
  filesize : Option Nat
deriving DecidableEq

/-- Python `formats[-1].get("url")` guarded by `if formats:`
(main.py lines 308-310). -/
def lastUrl (formats : List DlFormat) : Option String :=
  match formats.getLast? with
  | some f => f.url
  | none => none

/-- The `requested_formats` loop (main.py lines 315-321): each format whose
vcodec (resp. acodec) differs from "none" overwrites video_url (resp.
audio_url) with its possibly absent url. -/
def requestedUrls (reqs : List DlFormat) : Option String × Option String :=
  reqs.foldl
    (fun (acc : Option String × Option String) f =>
      (if f.vcodec ≠ some "none" then f.url else acc.1,
       if f.acodec ≠ some "none" then f.url else acc.2))
    (none, none)

/-- The /download URL resolution (main.py lines 305-349): top-level url, then
the last listed format's url, then the requested_formats video/audio pair,
else HTTPException(500). -/
def resolveDownload (platform : String) (info : DlInfo) :
    Except (Nat × String) DlResponse :=
  let du :=
    match truthyStr info.url with
    | some u => some u
    | none => truthyStr (lastUrl info.formats)
  match du with
  | some u =>
    .ok { success := true, platform := platform,
          title := info.title.getD "video", ext := info.ext.getD "mp4",
          download_url := u, audio_url := none, needs_merge := false,
          duration := info.duration,
          filesize := pyOrNat info.filesize info.filesize_approx }
  | none =>
    let vu := requestedUrls info.requested_formats
    match truthyStr vu.1 with
    | some v =>
      .ok { success := true, platform := platform,
            title := info.title.getD "video", ext := info.ext.getD "mp4",
            download_url := v, audio_url := vu.2,
            needs_merge :=
              match vu.2 with
              | some a => decide (v ≠ a)
              | none => false,
            duration := info.duration,
            filesize := pyOrNat info.filesize info.filesize_approx }
    | none => .error (500, "Could not get download URL")

/-- get_download_url (main.py lines 275-364) as a state transformer on the
cache: the function never references video_cache, so the cache passes through
unchanged.  The chosen format expression `downloadFormatSpec format_id
(effQuality quality)` only parameterizes the engine call abstracted by
`outcome`. -/
def downloadHandler (c : Cache InfoResult) (url : String)
    (format_id : Option String) (quality : Option String)
    (outcome : ExtractOutcome DlInfo) :
    (Except (Nat × String) DlResponse) × Cache InfoResult :=
  let platform := detect_platform url
  let result :=
    match fetchInfo outcome with
    | .ok info => resolveDownload platform info
    | .error e => .error (downloadCatch e)
  (result, c)

/-! ## The /stream handler (main.py lines 367-482) -/

/-- The character filter of main.py line 390: alphanumerics, space, hyphen,
underscore. -/
def allowedFilenameChar (c : Char) : Bool :=
  c.isAlphanum || c = ' ' || c = '-' || c = '_'

/-- The sanitization of main.py line 390 on the character list: filter to the
allowed characters, trim whitespace at both ends, truncate to 50. -/
def sanitizeChars (l : List Char) : List Char :=
  (stripChars (l.filter allowedFilenameChar)).take 50

/-- Python `"".join(c for c in title if c.isalnum() or c in (' ', '-',
'_')).strip()[:50]` (main.py line 390), `isalnum` modelled for ASCII. -/
def sanitizeTitle (title : String) : String := ⟨sanitizeChars title.data⟩

/-- Modelled from the spec: the sanitization rule exactly as the claim words
it — keep only alphanumerics, spaces, hyphens and underscores, strip every
other character, truncate to 50 — with no whitespace-trimming step.  Present
only to compare with `sanitizeTitle`, the translation of the code. -/
def sanitizeTitleSpec (title : String) : String :=
  ⟨(title.data.filter allowedFilenameChar).take 50⟩

/-- The suggested filename (main.py line 391): the sanitized title with the
fixed ".mp4" extension of the declared video/mp4 container. -/
def streamFilename (title : String) : String := sanitizeTitle title ++ ".mp4"

/-- The display metadata derived during the /stream pre-fetch
(main.py lines 389-392). -/
structure StreamMeta where
  title : String
  filename : String
  duration : Nat
deriving DecidableEq

/-- The /stream metadata pre-fetch (main.py lines 382-395).  The try block
raises HTTPException(404) on a falsy info, and the sole `except Exception`
clause catches every exception — including that HTTPException — re-wrapping
it as a 500. -/
def streamPrefetch (outcome : ExtractOutcome InfoDict) :
    Except (Nat × String) StreamMeta :=
  match fetchInfo outcome with
  | .ok info =>
    let title := info.title.getD "video"
    .ok { title := title, filename := streamFilename title,
          duration := info.duration.getD 0 }
  | .error e => .error (streamPrefetchCatch e)

/-- stream_download (main.py lines 367-475) as a state transformer on the
cache: the function never references video_cache, so the cache passes through
unchanged.  On success it returns the display metadata together with the
format expression handed to the spawned child process. -/
def streamHandler (c : Cache InfoResult) (url : String)
    (format_id : Option String) (quality : Option String)
    (outcome : ExtractOutcome InfoDict) :
    (Except (Nat × String) (StreamMeta × String)) × Cache InfoResult :=
  let spec := streamFormatSpec format_id (effQuality quality)
  (match streamPrefetch outcome with
   | .ok m => .ok (m, spec)
   | .error e => .error e, c)

/-- proxy_download (main.py lines 479-482) delegates to stream_download. -/
def proxyDownloadHandler (c : Cache InfoResult) (url : String)
    (format_id : Option String) (quality : Option String)
    (outcome : ExtractOutcome InfoDict) :
    (Except (Nat × String) (StreamMeta × String)) × Cache InfoResult :=
  streamHandler c url format_id quality outcome

/-! ## The streaming relay loop `generate` (main.py lines 431-464) -/

/-- Ways the relay loop of `generate` can exit: the subprocess spawn itself
fails (no process exists); the child's stdout reaches EOF and its exit code
is awaited; the client disconnects at a yield (GeneratorExit); or a read
raises.  `childExited` records whether the event loop had already observed
the child's exit (returncode set) when the finally block runs. -/
inductive StreamExit where
  | spawnFailed
  | completed (exitCode : Int)
  | disconnected (chunksSent : Nat) (childExited : Bool)
  | readError (chunksSent : Nat) (childExited : Bool)

/-- The child process handle's observable final state. -/
structure ChildState where
  spawned : Bool
  exited : Bool
  killed : Bool

/-- The child-process state after `generate` finishes, on each exit path: the
finally block (main.py lines 459-464) kills the child exactly when a process
exists and `process.returncode is None`. -/
def generateFinal : StreamExit → ChildState
  | .spawnFailed => { spawned := false, exited := false, killed := false }
  | .completed _ => { spawned := true, exited := true, killed := false }
  | .disconnected _ ce => { spawned := true, exited := ce, killed := !ce }
  | .readError _ ce => { spawned := true, exited := ce, killed := !ce }

/-- The chunks relayed to the client on each exit path (main.py lines
442-446): all of the child's stdout on a normal run, a prefix of it
otherwise. -/
def generateOutput (stdout : List (List Nat)) : StreamExit → List (List Nat)
  | .spawnFailed => []
  | .completed _ => stdout
  | .disconnected n _ => stdout.take n
  | .readError n _ => stdout.take n

/-! ## Concrete sample data for the de-duplication example -/

/-- A raw video-only 720p format (the example's first "720p" entry). -/
def raw137 : RawFormat := { format_id := "137", vcodec := "avc1", height := some 720 }

/-- A raw muxed 720p format with a different id (the second "720p" entry). -/
def raw22 : RawFormat :=
  { format_id := "22", vcodec := "avc1", acodec := "mp4a", height := some 720 }

/-- The listing entry produced from `raw137`. -/
def entry137 : FormatEntry :=
  { format_id := "137", ext := "mp4", quality := "720p", resolution := "720p",
    filesize := none, has_audio := false, has_video := true, height := 720 }

/-! ## Helper lemmas -/

/-- Membership through the stable insertion step. -/
theorem mem_insertByHeightDesc {f x : FormatEntry} {l : List FormatEntry} :
    x ∈ insertByHeightDesc f l ↔ x = f ∨ x ∈ l := by
  induction l with
  | nil => simp [insertByHeightDesc]
  | cons g rest ih =>
    unfold insertByHeightDesc
    split
    · simp [List.mem_cons]
    · simp only [List.mem_cons, ih]
      tauto

/-- Stable insertion preserves the height-descending ordering. -/
theorem pairwise_insertByHeightDesc {f : FormatEntry} {l : List FormatEntry}
    (hl : l.Pairwise (fun a b => b.height ≤ a.height)) :
    (insertByHeightDesc f l).Pairwise (fun a b => b.height ≤ a.height) := by
  induction l with
  | nil => simp [insertByHeightDesc]
  | cons g rest ih =>
    rw [List.pairwise_cons] at hl
    obtain ⟨hg, hrest⟩ := hl
    unfold insertByHeightDesc
    split
    · rename_i hle
      refine List.pairwise_cons.mpr ⟨?_, List.pairwise_cons.mpr ⟨hg, hrest⟩⟩
      intro y hy
      rcases List.mem_cons.mp hy with rfl | hy'
      · exact hle
      · exact le_trans (hg y hy') hle
    · rename_i hgt
      refine List.pairwise_cons.mpr ⟨?_, ih hrest⟩
      intro y hy
      rcases mem_insertByHeightDesc.mp hy with rfl | hy'
      · exact le_of_not_le hgt
      · exact hg y hy'

/-- The embedded sort orders by height, descending. -/
theorem pairwise_sortByHeightDesc (l : List FormatEntry) :
    (sortByHeightDesc l).Pairwise (fun a b => b.height ≤ a.height) := by
  induction l with
  | nil => simp [sortByHeightDesc]
  | cons f rest ih => exact pairwise_insertByHeightDesc ih

/-- The embedded sort neither adds nor removes elements. -/
theorem mem_sortByHeightDesc {x : FormatEntry} {l : List FormatEntry} :
    x ∈ sortByHeightDesc l ↔ x ∈ l := by
  induction l with
  | nil => simp [sortByHeightDesc]
  | cons f rest ih =>
    show x ∈ insertByHeightDesc f (sortByHeightDesc rest) ↔ _
    rw [mem_insertByHeightDesc, ih]
    simp [List.mem_cons]

/-- De-duplication selects a sublist of its input. -/
theorem dedupFirst_sublist (l : List FormatEntry) (seen : List String) :
    (dedupFirst l seen).Sublist l := by
  induction l generalizing seen with
  | nil => simp [dedupFirst]
  | cons f rest ih =>
    unfold dedupFirst
    split
    · exact (ih seen).cons f
    · exact (ih (f.quality :: seen)).cons₂ f

/-- No element surviving de-duplication carries an already-seen label. -/
theorem quality_not_seen_of_mem_dedupFirst {e : FormatEntry} :
    ∀ {l : List FormatEntry} {seen : List String},
      e ∈ dedupFirst l seen → e.quality ∉ seen := by
  intro l
  induction l with
  | nil => intro seen h; simp [dedupFirst] at h
  | cons f rest ih =>
    intro seen h
    unfold dedupFirst at h
    split at h
    · exact ih h
    · rename_i hnot
      rcases List.mem_cons.mp h with rfl | h'
      · exact hnot
      · intro hc
        exact ih h' (List.mem_cons_of_mem _ hc)

/-- De-duplicated labels are pairwise distinct. -/
theorem nodup_dedupFirst_map (l : List FormatEntry) (seen : List String) :
    ((dedupFirst l seen).map (fun e => e.quality)).Nodup := by
  induction l generalizing seen with
  | nil => simp [dedupFirst]
  | cons f rest ih =>
    unfold dedupFirst
    split
    · exact ih seen
    · simp only [List.map_cons, List.nodup_cons]
      refine ⟨?_, ih _⟩
      intro hmem
      rcases List.mem_map.mp hmem with ⟨e, he, heq⟩
      exact quality_not_seen_of_mem_dedupFirst he
        (by rw [heq]; exact List.mem_cons_self _ _)

/-- Each survivor of de-duplication is the first element of the input list
bearing its quality label. -/
theorem find?_dedupFirst {e : FormatEntry} :
    ∀ {l : List FormatEntry} {seen : List String}, e ∈ dedupFirst l seen →
      l.find? (fun f => f.quality == e.quality) = some e := by
  intro l
  induction l with
  | nil => intro seen h; simp [dedupFirst] at h
  | cons f rest ih =>
    intro seen h
    have hnotseen := quality_not_seen_of_mem_dedupFirst h
    unfold dedupFirst at h
    split at h
    · rename_i hseen
      have hfalse : (f.quality == e.quality) = false := by
        rw [Bool.eq_false_iff]
        simp only [ne_eq, beq_iff_eq]
        intro hc
        exact hnotseen (hc ▸ hseen)
      rw [List.find?_cons]
      simp only [hfalse]
      exact ih h
    · rename_i hseen
      rcases List.mem_cons.mp h with rfl | h'
      · exact List.find?_cons_of_pos _ (by simp)
      · have h2 := quality_not_seen_of_mem_dedupFirst h'
        have hfalse : (f.quality == e.quality) = false := by
          rw [Bool.eq_false_iff]
          simp only [ne_eq, beq_iff_eq]
          intro hc
          exact h2 (by rw [← hc]; exact List.mem_cons_self _ _)
        rw [List.find?_cons]
        simp only [hfalse]
        exact ih h'

/-- Membership through the whitespace trim. -/
theorem mem_of_mem_stripChars {c : Char} {l : List Char}
    (h : c ∈ stripChars l) : c ∈ l := by
  unfold stripChars at h
  rw [List.mem_reverse] at h
  have h2 := List.Sublist.mem h (List.dropWhile_sublist _)
  rw [List.mem_reverse] at h2
  exact List.Sublist.mem h2 (List.dropWhile_sublist _)

/-! ## Claim theorems -/

/-- C1: after `put(k, v)` a get within the TTL returns `v`; a get performed
once TTL (300 seconds) or more has elapsed since the entry's creation
returns absent while the expired entry itself stays stored (bypassed, not
deleted); and a `put(k, v')` after expiry makes a subsequent fresh get
return `v'`. -/
theorem C1_cache_freshness {α : Type} (c : Cache α) (k : String) (v v' : α)
    (t t1 t2 t3 : Nat) (h1 : t1 - t < CACHE_TTL) (h2 : CACHE_TTL ≤ t2 - t)
    (h3 : t3 - t2 < CACHE_TTL) :
    cacheGet (cachePut c k v t) k t1 = some v
    ∧ cacheGet (cachePut c k v t) k t2 = none
    ∧ (cachePut c k v t) k = some ⟨v, t⟩
    ∧ cacheGet (cachePut (cachePut c k v t) k v' t2) k t3 = some v' := by
  refine ⟨?_, ?_, ?_, ?_⟩ <;>
    simp [cacheGet, cachePut, is_cache_valid, h1, h3, Nat.not_lt.mpr h2]

/-- Witness for C1 at concrete inputs: fresh hit at time 0, expiry at 300,
overwrite at 300 served again. -/
theorem C1_cache_freshness_witness :
    cacheGet (cachePut (emptyCache Nat) "k" 1 0) "k" 0 = some 1
    ∧ cacheGet (cachePut (emptyCache Nat) "k" 1 0) "k" 300 = none
    ∧ (cachePut (emptyCache Nat) "k" 1 0) "k" = some ⟨1, 0⟩
    ∧ cacheGet (cachePut (cachePut (emptyCache Nat) "k" 1 0) "k" 2 300) "k" 300
        = some 2 :=
  C1_cache_freshness (emptyCache Nat) "k" 1 2 0 0 300 300
    (by decide) (by decide) (by decide)

/-- C9: for every URL string the classifier returns exactly one tag of the
closed enumeration, repeated calls agree, and a URL matching none of the
known domains falls back to "generic". -/
theorem C9_classifier_totality (u : String) :
    (detect_platform u ∈ platformTags ∧ detect_platform u = detect_platform u)
    ∧ (matchesKnownDomain u = false → detect_platform u = "generic") := by
  refine ⟨⟨?_, rfl⟩, ?_⟩
  · unfold detect_platform
    split
    · decide
    split
    · decide
    split
    · decide
    split
    · decide
    split
    · decide
    split
    · decide
    decide
  · intro h
    simp only [matchesKnownDomain, Bool.or_eq_false_iff] at h
    obtain ⟨⟨⟨⟨⟨⟨⟨⟨h1, h2⟩, h3⟩, h4⟩, h5⟩, h6⟩, h7⟩, h8⟩, h9⟩ := h
    unfold detect_platform
    rw [h1, h2, h3, h4, h5, h6, h7, h8, h9]
    rfl

/-- Witness for C9: a URL matching no known domain classifies to "generic",
a member of the enumeration. -/
theorem C9_classifier_totality_witness :
    detect_platform "http://x.io/v" ∈ platformTags
    ∧ detect_platform "http://x.io/v" = "generic" :=
  ⟨(C9_classifier_totality "http://x.io/v").1.1,
   (C9_classifier_totality "http://x.io/v").2 (by decide)⟩

/-- C2 counterexample: the /stream resolver (main.py lines 405-407) at
`(None, "720p")` produces a chain whose first link is a single pre-muxed
mp4 stream capped at 720, not the separately-fetched video-plus-audio link
the claim describes for the resolver. -/
theorem C2_counterexample :
    streamFormatSpec none "720p" = "best[height<=720][ext=mp4]/best[height<=720]/best"
    ∧ specLinks (streamFormatSpec none "720p")
        = ["best[height<=720][ext=mp4]", "best[height<=720]", "best"]
    ∧ ("best[height<=720][ext=mp4]" : String) ≠ "bestvideo[height<=720]+bestaudio" := by
  decide

/-- C2 amended: for each height tier with no format_id, the /download
resolver produces exactly the claimed three-link chain (separate
video-plus-audio capped, single stream capped, unconstrained best), while
the /stream resolver produces a muxed-biased chain whose first link is a
single mp4 stream capped at the tier; with any non-empty format_id both
resolvers produce exactly that literal, regardless of quality. -/
theorem C2_amended_fallback_order (q h fid q' : String)
    (hq : (q, h) ∈ [("1080p", "1080"), ("720p", "720"), ("480p", "480"), ("360p", "360")])
    (hfid : fid ≠ "") :
    specLinks (downloadFormatSpec none q)
      = ["bestvideo[height<=" ++ h ++ "]+bestaudio", "best[height<=" ++ h ++ "]", "best"]
    ∧ specLinks (streamFormatSpec none q)
      = ["best[height<=" ++ h ++ "][ext=mp4]", "best[height<=" ++ h ++ "]", "best"]
    ∧ downloadFormatSpec (some fid) q' = fid
    ∧ streamFormatSpec (some fid) q' = fid := by
  simp only [List.mem_cons, List.not_mem_nil, or_false, Prod.mk.injEq] at hq
  refine ⟨?_, ?_, ?_, ?_⟩
  · rcases hq with ⟨rfl, rfl⟩ | ⟨rfl, rfl⟩ | ⟨rfl, rfl⟩ | ⟨rfl, rfl⟩ <;> decide
  · rcases hq with ⟨rfl, rfl⟩ | ⟨rfl, rfl⟩ | ⟨rfl, rfl⟩ | ⟨rfl, rfl⟩ <;> decide
  · simp [downloadFormatSpec, truthyStr, hfid]
  · simp [streamFormatSpec, truthyStr, hfid]

/-- Witness for C2 amended at the 720p tier and the literal format id 42. -/
theorem C2_amended_fallback_order_witness :
    specLinks (downloadFormatSpec none "720p")
      = ["bestvideo[height<=720]+bestaudio", "best[height<=720]", "best"]
    ∧ specLinks (streamFormatSpec none "720p")
      = ["best[height<=720][ext=mp4]", "best[height<=720]", "best"]
    ∧ downloadFormatSpec (some "42") "best" = "42"
    ∧ streamFormatSpec (some "42") "best" = "42" :=
  C2_amended_fallback_order "720p" "720" "42" "best" (by decide) (by decide)

/-- C6 counterexample: for /download an unrecognized quality yields the
single-link "best", which differs from the chain produced for quality
"best"; for /stream the two coincide. -/
theorem C6_counterexample :
    downloadFormatSpec none "ultra" = "best"
    ∧ downloadFormatSpec none "best" = "best/bestvideo+bestaudio"
    ∧ downloadFormatSpec none "ultra" ≠ downloadFormatSpec none "best"
    ∧ streamFormatSpec none "ultra" = streamFormatSpec none "best" := by
  decide

/-- C6 amended: with no format_id, every quality outside the accepted set
degrades to an unconstrained-best expression: on /stream exactly the
quality-"best" expression, on /download the single link "best" — the first
link of the quality-"best" chain, without its video-plus-audio fallback. -/
theorem C6_amended_degrade (q : String)
    (h : q ∉ ["best", "audio", "1080p", "720p", "480p", "360p"]) :
    downloadFormatSpec none q = "best"
    ∧ streamFormatSpec none q = streamFormatSpec none "best"
    ∧ (specLinks (downloadFormatSpec none q)).head?
        = (specLinks (downloadFormatSpec none "best")).head? := by
  simp only [List.mem_cons, List.not_mem_nil, or_false, not_or] at h
  obtain ⟨hb, ha, h1, h2, h3, h4⟩ := h
  have hd : downloadFormatSpec none q = "best" := by
    simp [downloadFormatSpec, truthyStr, hb, ha, h1, h2, h3, h4]
  refine ⟨hd, ?_, ?_⟩
  · simp [streamFormatSpec, truthyStr, hb, ha, h1, h2, h3, h4]
  · rw [hd]; decide

/-- Witness for C6 amended at the unrecognized quality "ultra". -/
theorem C6_amended_degrade_witness :
    downloadFormatSpec none "ultra" = "best"
    ∧ streamFormatSpec none "ultra" = streamFormatSpec none "best" :=
  ⟨(C6_amended_degrade "ultra" (by decide)).1,
   (C6_amended_degrade "ultra" (by decide)).2.1⟩

/-- C4 counterexample: a message containing both "Sign in" and
"unavailable" is classified 403 by both JSON-endpoint classifiers, where
the claim as stated promises 404 for any message containing "unavailable". -/
theorem C4_counterexample :
    strContains (strLower "Sign in to continue: this video is unavailable")
      "unavailable" = true
    ∧ (classifyInfoErrMsg "Sign in to continue: this video is unavailable").1 = 403
    ∧ (classifyDlErrMsg "Sign in to continue: this video is unavailable").1 = 403 := by
  decide

/-- C4 amended: a message containing "Sign in" always maps to 403; one
containing "unavailable" case-insensitively maps to 404 provided no
higher-priority pattern ("Sign in", case-insensitive "bot", "Private")
matches; and a message matching no known pattern maps to 500 with the
diagnostic truncated to at most 200 characters. -/
theorem C4_amended_classification (m1 m2 m3 : String)
    (h1 : strContains m1 "Sign in" = true)
    (h2s : strContains m2 "Sign in" = false)
    (h2b : strContains (strLower m2) "bot" = false)
    (h2p : strContains m2 "Private" = false)
    (h2u : strContains (strLower m2) "unavailable" = true)
    (h3s : strContains m3 "Sign in" = false)
    (h3b : strContains (strLower m3) "bot" = false)
    (h3p : strContains m3 "Private" = false)
    (h3u : strContains (strLower m3) "unavailable" = false)
    (h3g : strContains (strLower m3) "geo" = false)
    (h3c : strContains (strLower m3) "country" = false) :
    (classifyInfoErrMsg m1).1 = 403 ∧ (classifyDlErrMsg m1).1 = 403
    ∧ (classifyInfoErrMsg m2).1 = 404 ∧ (classifyDlErrMsg m2).1 = 404
    ∧ classifyInfoErrMsg m3 = (500, "Extraction error: " ++ strTake m3 200)
    ∧ classifyDlErrMsg m3 = (500, "Error: " ++ strTake m3 200)
    ∧ (strTake m3 200).length ≤ 200 := by
  refine ⟨?_, ?_, ?_, ?_, ?_, ?_, ?_⟩
  · simp [classifyInfoErrMsg, h1]
  · simp [classifyDlErrMsg, h1]
  · simp [classifyInfoErrMsg, h2s, h2b, h2p, h2u]
  · simp [classifyDlErrMsg, h2s, h2b, h2p, h2u]
  · simp [classifyInfoErrMsg, h3s, h3b, h3p, h3u, h3g, h3c]
  · simp [classifyDlErrMsg, h3s, h3b, h3p, h3u]
  · exact List.length_take_le 200 m3.data

/-- Witness for C4 amended at three concrete messages. -/
theorem C4_amended_classification_witness :
    (classifyInfoErrMsg "Sign in").1 = 403
    ∧ (classifyInfoErrMsg "unavailable").1 = 404
    ∧ classifyInfoErrMsg "boom" = (500, "Extraction error: " ++ strTake "boom" 200)
    ∧ (strTake "boom" 200).length ≤ 200 := by
  have h := C4_amended_classification "Sign in" "unavailable" "boom"
    (by decide) (by decide) (by decide) (by decide) (by decide) (by decide)
    (by decide) (by decide) (by decide) (by decide) (by decide)
  exact ⟨h.1, h.2.2.1, h.2.2.2.2.1, h.2.2.2.2.2.2⟩

/-- C5: when the engine yields no metadata, /info and /download propagate
the classified 404 unchanged, but the /stream pre-fetch, whose bare
`except Exception` clause also catches HTTPException, re-classifies the
same failure as a 500 with a wrapped message — the code bug the claim
rules out. -/
theorem C5_stream_prefetch_reclassifies :
    (infoHandler (emptyCache InfoResult) 0 "u" "k" ExtractOutcome.empty).1
      = Except.error (404, "Video not found")
    ∧ (downloadHandler (emptyCache InfoResult) "u" none none ExtractOutcome.empty).1
      = Except.error (404, "Video not found")
    ∧ (streamHandler (emptyCache InfoResult) "u" none none ExtractOutcome.empty).1
      = Except.error (500, "Failed to get video info: 404: Video not found") :=
  ⟨rfl, rfl, rfl⟩

/-- C7: on every exit path of the relay loop — normal completion, client
disconnect, read failure, or a failed spawn — the child process ends
terminated: either its exit was observed or the finally block killed it;
the kill fires exactly when the child had not already exited; and the bytes
relayed are always a prefix of the child's stdout. -/
theorem C7_stream_cleanup (e : StreamExit) (stdout : List (List Nat)) :
    (!(generateFinal e).spawned || (generateFinal e).exited
        || (generateFinal e).killed) = true
    ∧ (!(generateFinal e).killed || !(generateFinal e).exited) = true
    ∧ ∃ n, generateOutput stdout e = stdout.take n := by
  rcases e with _ | ec | ⟨n, ce⟩ | ⟨n, ce⟩
  · exact ⟨rfl, rfl, ⟨0, rfl⟩⟩
  · exact ⟨rfl, rfl, ⟨stdout.length, (List.take_length stdout).symm⟩⟩
  · cases ce <;> exact ⟨rfl, rfl, ⟨n, rfl⟩⟩
  · cases ce <;> exact ⟨rfl, rfl, ⟨n, rfl⟩⟩

/-- C8 counterexample: on a title with trailing whitespace the code's
sanitizer (which also calls `.strip()`) disagrees with the claim's stated
rule, which keeps the trailing space. -/
theorem C8_counterexample :
    sanitizeTitleSpec "Test: Video! #1 " = "Test Video 1 "
    ∧ sanitizeTitle "Test: Video! #1 " = "Test Video 1"
    ∧ sanitizeTitleSpec "Test: Video! #1 " ≠ sanitizeTitle "Test: Video! #1 " := by
  decide

/-- C8 amended: the title is filtered to alphanumerics, spaces, hyphens and
underscores, additionally trimmed of leading and trailing whitespace,
truncated to 50 characters, and the ".mp4" container extension is appended;
"Test: Video! #1" sanitizes to "Test Video 1". -/
theorem C8_amended_sanitization (t : String) :
    sanitizeTitle "Test: Video! #1" = "Test Video 1"
    ∧ streamFilename "Test: Video! #1" = "Test Video 1.mp4"
    ∧ (sanitizeTitle t).length ≤ 50
    ∧ (∀ c ∈ (sanitizeTitle t).data, allowedFilenameChar c = true)
    ∧ streamFilename t = sanitizeTitle t ++ ".mp4" := by
  refine ⟨by decide, by decide, ?_, ?_, rfl⟩
  · show (sanitizeChars t.data).length ≤ 50
    exact List.length_take_le _ _
  · intro c hc
    have hc1 : c ∈ sanitizeChars t.data := hc
    have hc2 : c ∈ stripChars (t.data.filter allowedFilenameChar) :=
      List.Sublist.mem hc1 (List.take_sublist _ _)
    have hc3 : c ∈ t.data.filter allowedFilenameChar := mem_of_mem_stripChars hc2
    exact (List.mem_filter.mp hc3).2

/-- Witness for C8 amended at a concrete title and character. -/
theorem C8_amended_sanitization_witness :
    (sanitizeTitle "ab c").length ≤ 50 ∧ allowedFilenameChar 'a' = true :=
  ⟨(C8_amended_sanitization "ab c").2.2.1,
   (C8_amended_sanitization "ab c").2.2.2.1 'a' (by decide)⟩

/-- C3: the /info listing keeps at most 10 entries; every kept entry has
positive height or the literal "audio" label; kept quality labels are
pairwise distinct; the listing is ordered by height, descending; each kept
entry is the first entry with its label in the descending-sorted list
(stable, first-wins); and two raw 720p formats with different ids yield
exactly one "720p" entry — the first. -/
theorem C3_format_dedup (raws : List RawFormat) :
    (processFormats raws).length ≤ 10
    ∧ (∀ e ∈ processFormats raws, 0 < e.height ∨ e.quality = "audio")
    ∧ ((processFormats raws).map (fun e => e.quality)).Nodup
    ∧ (processFormats raws).Pairwise (fun a b => b.height ≤ a.height)
    ∧ (∀ e ∈ processFormats raws,
        (sortedFormats raws).find? (fun f => f.quality == e.quality) = some e)
    ∧ (processFormats [raw137, raw22]).map (fun e => e.format_id) = ["137"]
    ∧ (processFormats [raw137, raw22]).map (fun e => e.quality) = ["720p"] := by
  have hsub : (processFormats raws).Sublist (dedupFirst (sortedFormats raws) []) :=
    List.take_sublist _ _
  have hsub2 := dedupFirst_sublist (sortedFormats raws) []
  refine ⟨List.length_take_le _ _, ?_, ?_, ?_, ?_, by decide, by decide⟩
  · intro e he
    have h1 := List.Sublist.mem he hsub
    have h2 := List.Sublist.mem h1 hsub2
    have h3 : e ∈ keptFormats raws := mem_sortByHeightDesc.mp h2
    have h4 := (List.mem_filter.mp h3).2
    simpa only [Bool.or_eq_true, decide_eq_true_eq] using h4
  · exact List.Nodup.sublist (List.Sublist.map _ hsub)
      (nodup_dedupFirst_map (sortedFormats raws) [])
  · exact List.Pairwise.sublist (hsub.trans hsub2)
      (pairwise_sortByHeightDesc (keptFormats raws))
  · intro e he
    exact find?_dedupFirst (List.Sublist.mem he hsub)

/-- Witness for C3 at the concrete two-entry 720p metadata set. -/
theorem C3_format_dedup_witness :
    (processFormats [raw137, raw22]).length ≤ 10
    ∧ (0 < entry137.height ∨ entry137.quality = "audio")
    ∧ (sortedFormats [raw137, raw22]).find?
        (fun f => f.quality == entry137.quality) = some entry137 :=
  ⟨(C3_format_dedup [raw137, raw22]).1,
   (C3_format_dedup [raw137, raw22]).2.1 entry137 (by decide),
   (C3_format_dedup [raw137, raw22]).2.2.2.2.1 entry137 (by decide)⟩

/-- C10: the /download, /stream and /proxy-download handlers leave the
cache untouched on every input; /info leaves it untouched on any failed
extraction and on a fresh cache hit, and writes exactly the one rendered
entry at the request's key after a successful extraction. -/
theorem C10_cache_frame (c : Cache InfoResult) (now : Nat) (url key : String)
    (fid q : Option String) (dlo : ExtractOutcome DlInfo)
    (sto io : ExtractOutcome InfoDict) (okInfo : InfoDict) (r : InfoResult)
    (hfail : ∀ i, io ≠ .ok i) :
    (downloadHandler c url fid q dlo).2 = c
    ∧ (streamHandler c url fid q sto).2 = c
    ∧ (proxyDownloadHandler c url fid q sto).2 = c
    ∧ (cacheGet c key now = none → (infoHandler c now url key io).2 = c)
    ∧ (cacheGet c key now = some r → (infoHandler c now url key io).2 = c)
    ∧ (cacheGet c key now = none →
        (infoHandler c now url key (.ok okInfo)).2
          = cachePut c key (renderInfo (detect_platform url) url okInfo) now) := by
  refine ⟨rfl, rfl, rfl, ?_, ?_, ?_⟩
  · intro h
    rcases io with i | _ | m | m
    · exact absurd rfl (hfail i)
    all_goals simp [infoHandler, h, fetchInfo]
  · intro h
    simp [infoHandler, h]
  · intro h
    simp [infoHandler, h, fetchInfo]

/-- Witness for C10: the empty cache is unchanged by /download and by a
failed /info extraction. -/
theorem C10_cache_frame_witness :
    (downloadHandler (emptyCache InfoResult) "u" none none ExtractOutcome.empty).2
      = emptyCache InfoResult
    ∧ (infoHandler (emptyCache InfoResult) 0 "u" "k" ExtractOutcome.empty).2
      = emptyCache InfoResult := by
  have h := C10_cache_frame (emptyCache InfoResult) 0 "u" "k" none none
    ExtractOutcome.empty ExtractOutcome.empty ExtractOutcome.empty {}
    (renderInfo "generic" "u" {}) (fun i hi => ExtractOutcome.noConfusion hi)
  exact ⟨h.1, h.2.2.2.1 rfl⟩

end VideoAPI
